import Mathlib

/-!
Shallow embedding of the repository source.

The repository holds two files:
  * src/src/frontend/src/components/icons/GraphIcon.tsx — a React function
    component that takes a `props` argument of type React.SVGProps and
    returns a fixed JSX element tree (an svg root with three rect children
    and two path children);
  * src/files/fem_files/sesam/single_beam.xml — a static structural
    engineering data file, read by no code under src/.

JSX element trees are modelled as plain data: an element is its tag with an
ordered list of string attribute pairs, exactly as written in the JSX.  The
svg tree in GraphIcon.tsx nests only one level deep, so the root and its
children get their own structure types.  React props are modelled as a finite
assignment of attribute names to string values.
-/

/-- Attribute list of a JSX element: the ordered name-value pairs written on
the element, values kept as the literal strings of the source. -/
abbrev Attrs := List (String × String)

/-- Model of React.SVGProps, the caller-supplied presentation attributes: a
finite assignment of attribute names to string values (the caller may supply
any attributes, well-formed or not). -/
abbrev SVGProps := List (String × String)

/-- A child element of the svg root in GraphIcon.tsx: a tag with its
attributes.  The children in the source (rect, path) have no children of
their own, so none are modelled. -/
structure SvgChild where
  tag : String
  attrs : Attrs
deriving DecidableEq, Repr

/-- The svg root element: its attributes and its ordered children. -/
structure SvgElem where
  attrs : Attrs
  children : List SvgChild
deriving DecidableEq, Repr

/-- Value of the first attribute with the given name, if any. -/
def lookupAttr (attrs : Attrs) (name : String) : Option String :=
  (attrs.find? (fun a => a.1 == name)).map (fun a => a.2)

/-- Attribute lookup on a child element. -/
def SvgChild.getAttr (c : SvgChild) (name : String) : Option String :=
  lookupAttr c.attrs name

/-- Attribute lookup on the svg root. -/
def SvgElem.getAttr (e : SvgElem) (name : String) : Option String :=
  lookupAttr e.attrs name

/-- The child element with every attribute of the given name removed; used to
compare two elements up to one attribute. -/
def SvgChild.eraseAttr (c : SvgChild) (name : String) : SvgChild :=
  ⟨c.tag, c.attrs.filter (fun a => a.1 != name)⟩

/-- GraphIcon, from GraphIcon.tsx lines 3-16.  The component binds a `props`
parameter and returns the JSX literal transcribed below; the body contains no
use of `props` (there is no spread of props onto the svg element and no read
of any prop field), so the Lean definition binds `props` and never uses it,
exactly as the source does. -/
def GraphIcon (props : SVGProps) : SvgElem :=
  { attrs := [("width", "24px"), ("height", "24px"), ("strokeWidth", "1.5"),
      ("viewBox", "0 0 24 24"), ("fill", "none"),
      ("xmlns", "http://www.w3.org/2000/svg"), ("color", "currentColor")],
    children :=
      [⟨"rect", [("width", "7"), ("height", "5"), ("rx", "0.6"),
          ("transform", "matrix(0 -1 -1 0 22 21)"),
          ("stroke", "currentColor"), ("strokeWidth", "1.5")]⟩,
       ⟨"rect", [("width", "7"), ("height", "5"), ("rx", "0.6"),
          ("transform", "matrix(0 -1 -1 0 7 15.5)"),
          ("stroke", "currentColor"), ("strokeWidth", "1.5")]⟩,
       ⟨"rect", [("width", "7"), ("height", "5"), ("rx", "0.6"),
          ("transform", "matrix(0 -1 -1 0 22 10)"),
          ("stroke", "currentColor"), ("strokeWidth", "1.5")]⟩,
       ⟨"path", [("d", "M17 17.5H13.5C12.3954 17.5 11.5 16.6046 11.5 15.5V8.5C11.5 7.39543 12.3954 6.5 13.5 6.5H17"),
          ("stroke", "currentColor"), ("strokeWidth", "1.5")]⟩,
       ⟨"path", [("d", "M11.5 12H7"),
          ("stroke", "currentColor"), ("strokeWidth", "1.5")]⟩] }

/-- Modelled from the spec: the fixed baseline glyph the spec describes for
the no-override case — an svg of width 24px, height 24px, viewBox 0 0 24 24,
strokeWidth 1.5, fill none, color currentColor, containing exactly three
7 by 5 rounded rects (rx 0.6, each with its own transform matrix) followed by
two stroke paths.  Written from the claim text, to be compared with the
source definition GraphIcon. -/
def baselineGlyph : SvgElem :=
  { attrs := [("width", "24px"), ("height", "24px"), ("strokeWidth", "1.5"),
      ("viewBox", "0 0 24 24"), ("fill", "none"),
      ("xmlns", "http://www.w3.org/2000/svg"), ("color", "currentColor")],
    children :=
      [⟨"rect", [("width", "7"), ("height", "5"), ("rx", "0.6"),
          ("transform", "matrix(0 -1 -1 0 22 21)"),
          ("stroke", "currentColor"), ("strokeWidth", "1.5")]⟩,
       ⟨"rect", [("width", "7"), ("height", "5"), ("rx", "0.6"),
          ("transform", "matrix(0 -1 -1 0 7 15.5)"),
          ("stroke", "currentColor"), ("strokeWidth", "1.5")]⟩,
       ⟨"rect", [("width", "7"), ("height", "5"), ("rx", "0.6"),
          ("transform", "matrix(0 -1 -1 0 22 10)"),
          ("stroke", "currentColor"), ("strokeWidth", "1.5")]⟩,
       ⟨"path", [("d", "M17 17.5H13.5C12.3954 17.5 11.5 16.6046 11.5 15.5V8.5C11.5 7.39543 12.3954 6.5 13.5 6.5H17"),
          ("stroke", "currentColor"), ("strokeWidth", "1.5")]⟩,
       ⟨"path", [("d", "M11.5 12H7"),
          ("stroke", "currentColor"), ("strokeWidth", "1.5")]⟩] }

/-- Invocation semantics of GraphIcon as a JavaScript call: a call runs
against the ambient mutable environment (modelled by an arbitrary state type
σ) and returns the new environment together with the rendered tree.  The body
of GraphIcon is a single expression that constructs the JSX literal and
touches nothing else — it reads no variable outside its own parameter and
assigns nothing — so the environment passes through unchanged. -/
def invokeGraphIcon {σ : Type} (s : σ) (props : SVGProps) : σ × SvgElem :=
  (s, GraphIcon props)

/-- The environment after a sequence of earlier GraphIcon invocations with
the given props lists. -/
def runHistory {σ : Type} (s : σ) : List SVGProps → σ
  | [] => s
  | p :: ps => runHistory (invokeGraphIcon s p).1 ps

/-- A batch of GraphIcon invocations run one after another against the shared
environment, collecting every rendered tree in order.  Each invocation body is
a single synchronous expression with no await point, so interleaving happens
at invocation granularity. -/
def runAll {σ : Type} (s : σ) : List SVGProps → σ × List SvgElem
  | [] => (s, [])
  | p :: ps =>
      let r := invokeGraphIcon s p
      let rest := runAll r.1 ps
      (rest.1, r.2 :: rest.2)

/-- Fallible view of GraphIcon: the source body performs no validation, no
computation that can throw, and no branching at all, so the embedding into
Except has no reachable error constructor — every call returns ok with the
rendered tree. -/
def GraphIconChecked (props : SVGProps) : Except String SvgElem :=
  Except.ok (GraphIcon props)

/-- GraphIcon as a function of the whole repository content in scope: the
first argument is the text of src/files/fem_files/sesam/single_beam.xml.
GraphIcon.tsx imports only React and opens no file, so the body never
consults the xml argument. -/
def GraphIconInRepo (xml : String) (props : SVGProps) : SvgElem :=
  GraphIcon props

/-! ## Theorems about the claims -/

/-- Claim C1, counterexample: the claim says a caller-supplied width
overrides the built-in default 24px width, but with props supplying
width 100px the rendered svg still carries width 24px, not 100px. -/
theorem graphIcon_width_not_forwarded :
    ¬ (SvgElem.getAttr (GraphIcon [("width", "100px")]) "width" = some "100px") := by
  decide

/-- Claim C1 as amended: GraphIcon does not forward caller-supplied
presentation attributes at all — the props argument is ignored, the output
for any props equals the output for no props, and the built-in defaults
(such as the 24px width) always apply. -/
theorem graphIcon_props_ignored_defaults_apply (props : SVGProps) :
    GraphIcon props = GraphIcon [] ∧
    SvgElem.getAttr (GraphIcon props) "width" = some "24px" :=
  ⟨rfl, rfl⟩

/-- Claim C2: GraphIcon is a constant function of its props — any two prop
sets, the empty one included, produce the identical element tree. -/
theorem graphIcon_constant (p1 p2 : SVGProps) : GraphIcon p1 = GraphIcon p2 :=
  rfl

/-- Claim C3: with no attribute overrides, the output equals the fixed
baseline glyph exactly — svg of width 24px, height 24px, viewBox 0 0 24 24,
strokeWidth 1.5, fill none, color currentColor, with exactly three rounded
rects followed by two paths, in that order. -/
theorem graphIcon_default_is_baseline :
    GraphIcon [] = baselineGlyph ∧
    (GraphIcon []).children.map SvgChild.tag = ["rect", "rect", "rect", "path", "path"] :=
  ⟨rfl, rfl⟩

/-- Claim C4: GraphIcon is deterministic — two invocations with the same
props, run in arbitrary (possibly different) environments, render the same
output tree. -/
theorem graphIcon_deterministic {σ : Type} (s1 s2 : σ) (p : SVGProps) :
    (invokeGraphIcon s1 p).2 = (invokeGraphIcon s2 p).2 :=
  rfl

/-- Claim C5: GraphIcon cannot fail — for every props value, well-formed or
not, the fallible view returns ok with the rendered tree and is never an
error. -/
theorem graphIconChecked_total (props : SVGProps) :
    GraphIconChecked props = Except.ok (GraphIcon props) ∧
    ∀ e : String, GraphIconChecked props ≠ Except.error e :=
  ⟨rfl, by intro e h; simp [GraphIconChecked] at h⟩

/-- Claim C6: GraphIcon is pure and stateless — an invocation returns the
environment unchanged (no side effects), and its output after any history of
earlier invocations equals the output of a fresh first invocation with the
same props. -/
theorem graphIcon_pure_stateless {σ : Type} (s : σ) (hist : List SVGProps) (p : SVGProps) :
    (invokeGraphIcon s p).1 = s ∧
    (invokeGraphIcon (runHistory s hist) p).2 = (invokeGraphIcon s p).2 :=
  ⟨rfl, rfl⟩

/-- Claim C7: noninterference with the XML data file — GraphIcon renders the
identical tree under any two contents of
src/files/fem_files/sesam/single_beam.xml. -/
theorem graphIcon_xml_noninterference (x1 x2 : String) (p : SVGProps) :
    GraphIconInRepo x1 p = GraphIconInRepo x2 p :=
  rfl

/-- Claim C8: every rect child of the output has width 7, height 5, rx 0.6,
stroke currentColor and strokeWidth 1.5; any two rect children agree on every
attribute except transform, and their transforms are pairwise distinct; and
every child (rects and paths) uses stroke currentColor with strokeWidth
1.5. -/
theorem graphIcon_rects_uniform (props : SVGProps) :
    (∀ c ∈ (GraphIcon props).children, c.tag = "rect" →
      SvgChild.getAttr c "width" = some "7" ∧
      SvgChild.getAttr c "height" = some "5" ∧
      SvgChild.getAttr c "rx" = some "0.6" ∧
      SvgChild.getAttr c "stroke" = some "currentColor" ∧
      SvgChild.getAttr c "strokeWidth" = some "1.5") ∧
    (∀ c1 ∈ (GraphIcon props).children, ∀ c2 ∈ (GraphIcon props).children,
      c1.tag = "rect" → c2.tag = "rect" →
      SvgChild.eraseAttr c1 "transform" = SvgChild.eraseAttr c2 "transform") ∧
    ((GraphIcon props).children.filter (fun c => c.tag == "rect")).Pairwise
      (fun c1 c2 => SvgChild.getAttr c1 "transform" ≠ SvgChild.getAttr c2 "transform") ∧
    (∀ c ∈ (GraphIcon props).children,
      SvgChild.getAttr c "stroke" = some "currentColor" ∧
      SvgChild.getAttr c "strokeWidth" = some "1.5") := by
  have h : GraphIcon props = GraphIcon [] := rfl
  rw [h]
  decide

/-- Claim C9: the rendering unit is synchronous and reentrant — a batch of
invocations interleaved over the shared environment leaves the environment as
it started, and each invocation renders exactly what its isolated sequential
execution from the same starting environment renders. -/
theorem graphIcon_reentrant {σ : Type} (s : σ) (ps : List SVGProps) :
    (runAll s ps).1 = s ∧
    (runAll s ps).2 = ps.map (fun p => (invokeGraphIcon s p).2) := by
  induction ps with
  | nil => exact ⟨rfl, rfl⟩
  | cons p ps ih => exact ⟨ih.1, by simp [runAll, invokeGraphIcon, ih.2]⟩
